import Mathlib

set_option maxRecDepth 8192

/-!
Verification model of the obsidian-tag-replacer plugin, src/main.ts.

Strings are modelled as lists of characters.  The JavaScript string
primitives used by the source are given explicit models: split on the
slash character, destructuring with a possibly undefined second
component, template literal interpolation of undefined, slice with the
arguments zero and minus two, and includes of a single character.
The generated stylesheet text is the value of generateCss; the thrown
TypeError caused by reading includes from an undefined name is modelled
as the error case of the Except monad.
-/

abbrev Str := List Char

/-- Shorthand turning a Lean string literal into the character list model. -/
def lit (s : String) : Str := s.toList

/-- Substring occurrence predicate used to state the containment claims. -/
def SubStr (s big : Str) : Prop := ∃ a b : Str, big = a ++ s ++ b

/-- Tag and icon pair, src/main.ts lines 4 to 7. -/
structure TagIconPair where
  tag : String
  icon : String
  deriving DecidableEq, Repr

/-- Plugin settings, src/main.ts lines 9 to 11. -/
structure CssGeneratorSettings where
  tagIconPairs : List TagIconPair
  deriving DecidableEq, Repr

/-- Default settings, src/main.ts lines 13 to 15. -/
def DEFAULT_SETTINGS : CssGeneratorSettings := ⟨[]⟩

/-- JS split on the slash character combined with the destructuring of
line 49: the second component is none exactly when the split yields fewer
than two parts, matching an undefined binding for the name. -/
def splitTag (tag : String) : Str × Option Str :=
  match tag.toList.splitOn '/' with
  | [] => ([], none)
  | [c] => (c, none)
  | c :: n :: _ => (c, some n)

/-- JS template literal interpolation of a possibly undefined value:
an undefined binding prints as the eight letter word undefined. -/
def jsShow : Option Str → Str
  | none => lit "undefined"
  | some s => s

/-- The cleanTag of line 50: category concatenated with name. -/
def cleanTagOf (p : TagIconPair) : Str :=
  (splitTag p.tag).1 ++ jsShow (splitTag p.tag).2

/-- A tag is well formed when splitting on the slash produced a second
segment, so the name binding of line 49 is defined. -/
def ValidTag (p : TagIconPair) : Prop := (splitTag p.tag).2.isSome = true

instance (p : TagIconPair) : Decidable (ValidTag p) := by
  unfold ValidTag
  exact inferInstance

/-- Message of the TypeError thrown at lines 55, 75 and 94 when includes
is read from the undefined name binding. -/
def undefinedIncludesMsg : String :=
  "TypeError: cannot read properties of undefined (reading includes)"

/-- One iteration of the first loop, src/main.ts lines 48 to 59. -/
def snip1 (p : TagIconPair) : Except String Str :=
  let cleanTag := cleanTagOf p
  let base := (lit ".tag[href=\"#" ++ p.tag.toList ++ lit "\"],\n")
    ++ (lit ".cm-tag-" ++ cleanTag ++ lit ",\n")
  match (splitTag p.tag).2 with
  | none => .error undefinedIncludesMsg
  | some name =>
    if name.contains '_' then
      .ok (base ++ (lit ".cm-tag-" ++ cleanTag ++ lit " + span.cm-hashtag,\n")
        ++ (lit ".cm-tag-" ++ cleanTag ++ lit " + span.cm-hashtag + .cm-hashtag,\n"))
    else
      .ok base

/-- One iteration of the second loop, src/main.ts lines 68 to 79. -/
def snip2 (p : TagIconPair) : Except String Str :=
  let cleanTag := cleanTagOf p
  let base := (lit ".tag[href=\"#" ++ p.tag.toList ++ lit "\"]:after,\n")
    ++ (lit ".cm-tag-" ++ cleanTag ++ lit ":after,\n")
  match (splitTag p.tag).2 with
  | none => .error undefinedIncludesMsg
  | some name =>
    if name.contains '_' then
      .ok (base ++ (lit ".cm-tag-" ++ cleanTag ++ lit " + span.cm-hashtag:after,\n")
        ++ (lit ".cm-tag-" ++ cleanTag ++ lit " + span.cm-hashtag + .cm-hashtag:after,\n"))
    else
      .ok base

/-- One iteration of the third loop, src/main.ts lines 87 to 98. -/
def snip3 (p : TagIconPair) : Except String Str :=
  let cleanTag := cleanTagOf p
  let base := (lit ".cm-active .tag[href=\"#" ++ p.tag.toList ++ lit "\"],\n")
    ++ (lit ".cm-active .cm-tag-" ++ cleanTag ++ lit ",\n")
  match (splitTag p.tag).2 with
  | none => .error undefinedIncludesMsg
  | some name =>
    if name.contains '_' then
      .ok (base ++ (lit ".cm-active .cm-tag-" ++ cleanTag ++ lit " + span.cm-hashtag,\n")
        ++ (lit ".cm-active .cm-tag-" ++ cleanTag ++ lit " + span.cm-hashtag + .cm-hashtag,\n"))
    else
      .ok base

/-- One iteration of the fourth loop, src/main.ts lines 106 to 117.  This
loop never reads includes, so it is total even for a missing name. -/
def snip4 (p : TagIconPair) : Str :=
  let cleanTag := cleanTagOf p
  (lit ".tag[href=\"#" ++ p.tag.toList ++ lit "\"]:after,\n")
  ++ (lit ".cm-hashtag-begin.cm-tag-" ++ cleanTag ++ lit ":after \x7b\n")
  ++ lit "  background-color: rgba(162, 93, 53, 0.1);\n"
  ++ lit "  border: solid 1px rgba(209, 209, 209, 0.1);\n"
  ++ lit "  border-radius: 3px;\n"
  ++ (lit "  content: \"" ++ p.icon.toList ++ lit "\";\n")
  ++ lit "\x7d\n\n"

/-- Shared rule body appended after the first selector list, lines 62 to 65. -/
def suppressBody : Str := lit " \x7b\n  font-size: 0px;\n  padding: 0;\n\x7d\n\n"

/-- Shared rule body appended after the second and the third selector lists,
lines 82 to 84 and lines 101 to 103. -/
def restoreBody : Str := lit " \x7b\n  font-size: var(--font-text-size);\n\x7d\n\n"

/-- JS slice with the arguments zero and minus two, lines 61, 81 and 100:
it keeps everything except the final two characters, clamped at empty. -/
def jsSliceDrop2 (s : Str) : Str := s.take (s.length - 2)

/-- Accumulation of one for loop over the pairs: the css text is extended
by each iteration, and the first pair with an undefined name aborts the
whole run with the thrown error. -/
def appendSnips (snip : TagIconPair → Except String Str) :
    List TagIconPair → Str → Except String Str
  | [], acc => .ok acc
  | p :: rest, acc =>
    match snip p with
    | .error e => .error e
    | .ok s => appendSnips snip rest (acc ++ s)

/-- Text construction of generateCss, src/main.ts lines 44 to 117: four
sequential loops over the pair list, each selector list trimmed by slice
before its shared body is attached, everything accumulated into one text. -/
def generateCss (pairs : List TagIconPair) : Except String Str :=
  (appendSnips snip1 pairs []).bind fun css0 =>
    (appendSnips snip2 pairs (jsSliceDrop2 css0 ++ suppressBody)).bind fun css2 =>
      (appendSnips snip3 pairs (jsSliceDrop2 css2 ++ restoreBody)).bind fun css4 =>
        .ok ((jsSliceDrop2 css4 ++ restoreBody) ++ (pairs.map snip4).flatten)

/-- Value carried by a successful snippet; the empty fallback is never
reached for a pair with a well formed tag. -/
def okD : Except String Str → Str
  | .ok s => s
  | .error _ => []

/-- Successful first loop snippet of a pair. -/
def psnip1 (p : TagIconPair) : Str := okD (snip1 p)

/-- Successful second loop snippet of a pair. -/
def psnip2 (p : TagIconPair) : Str := okD (snip2 p)

/-- Successful third loop snippet of a pair. -/
def psnip3 (p : TagIconPair) : Str := okD (snip3 p)

/-- First emitted rule group, the suppress block. -/
def block1 (pairs : List TagIconPair) : Str :=
  jsSliceDrop2 ((pairs.map psnip1).flatten) ++ suppressBody

/-- Second emitted rule group, restoring the size on after pseudo elements. -/
def block2 (pairs : List TagIconPair) : Str :=
  jsSliceDrop2 ((pairs.map psnip2).flatten) ++ restoreBody

/-- Third emitted rule group, restoring the size under the active line scope. -/
def block3 (pairs : List TagIconPair) : Str :=
  jsSliceDrop2 ((pairs.map psnip3).flatten) ++ restoreBody

/-- Fourth emitted rule group, one icon rule block per pair. -/
def block4 (pairs : List TagIconPair) : Str :=
  (pairs.map snip4).flatten

/-- Assembly of the four rule groups from their per pair snippet sequences. -/
def assemble (s1 s2 s3 s4 : List Str) : Str :=
  (jsSliceDrop2 s1.flatten ++ suppressBody) ++ (jsSliceDrop2 s2.flatten ++ restoreBody)
    ++ (jsSliceDrop2 s3.flatten ++ restoreBody) ++ s4.flatten

/-- First sibling hashtag continuation selector of a pair. -/
def sib1 (p : TagIconPair) : Str :=
  lit ".cm-tag-" ++ cleanTagOf p ++ lit " + span.cm-hashtag"

/-- Second sibling hashtag continuation selector of a pair. -/
def sib2 (p : TagIconPair) : Str :=
  lit ".cm-tag-" ++ cleanTagOf p ++ lit " + span.cm-hashtag + .cm-hashtag"

/-- Outcome of one host filesystem operation. -/
inductive FsResult where
  | ok : FsResult
  | err : String → FsResult
  deriving DecidableEq, Repr

/-- The two filesystem operations attempted by generateCss. -/
inductive FsOp where
  | mkdir : FsOp
  | write : FsOp
  deriving DecidableEq, Repr

/-- Model of the try catch block, src/main.ts lines 123 to 134: mkdir is
attempted first, a failure of it skips the write, any error is logged and
swallowed.  The first component lists the attempted operations in order,
the second component is the logged error, if any. -/
def runFs (mkdirRes writeRes : FsResult) : List FsOp × Option String :=
  match mkdirRes with
  | .err e => ([FsOp.mkdir], some e)
  | .ok =>
    match writeRes with
    | .err e => ([FsOp.mkdir, FsOp.write], some e)
    | .ok => ([FsOp.mkdir, FsOp.write], none)

/-- Whole run of generateCss including the filesystem tail: the text
generation happens before the try block, so its TypeError propagates,
while the filesystem errors are confined to the logged component. -/
def generateCssRun (pairs : List TagIconPair) (mkdirRes writeRes : FsResult) :
    Except String (Str × List FsOp × Option String) :=
  match generateCss pairs with
  | .error e => .error e
  | .ok css => .ok (css, runFs mkdirRes writeRes)

/-- Persisted data blob as read back by loadData; the field may be missing
in an older or partial blob, and a missing blob altogether is none. -/
structure StoredData where
  tagIconPairs : Option (List TagIconPair)

/-- The loadSettings merge, src/main.ts lines 32 to 38: Object.assign of an
empty object, the defaults and the loaded blob.  A null or missing blob is
skipped by assign and leaves the defaults; a present field overrides them. -/
def loadSettings (stored : Option StoredData) : CssGeneratorSettings :=
  match stored with
  | none => DEFAULT_SETTINGS
  | some d =>
    match d.tagIconPairs with
    | some v => ⟨v⟩
    | none => DEFAULT_SETTINGS

/-- Default row appended by the add buttons, src/main.ts lines 160 to 163. -/
def emptyPair : TagIconPair := ⟨"", ""⟩

/-- Move up handler, src/main.ts lines 191 to 207: a guarded swap of the
row with its predecessor.  Indices always lie inside the list because they
come from the forEach enumeration of the same list. -/
def moveUp (l : List TagIconPair) (i : Nat) : List TagIconPair :=
  if 0 < i then
    (l.set (i - 1) (l.getD i emptyPair)).set i (l.getD (i - 1) emptyPair)
  else l

/-- Move down handler, src/main.ts lines 209 to 228: a guarded swap of the
row with its successor. -/
def moveDown (l : List TagIconPair) (i : Nat) : List TagIconPair :=
  if i < l.length - 1 then
    (l.set (i + 1) (l.getD i emptyPair)).set i (l.getD (i + 1) emptyPair)
  else l

/-- Sample pair with tag a slash b. -/
def pairAB : TagIconPair := ⟨"a/b", "X"⟩

/-- Sample pair with tag c slash d. -/
def pairCD : TagIconPair := ⟨"c/d", "Y"⟩

/-- Sample pair of the single pair scenario. -/
def pairTask : TagIconPair := ⟨"task/inbox", "📥"⟩

/-- Sample pair whose tag has no separator. -/
def pairNoSlash : TagIconPair := ⟨"abc", "X"⟩

/-- Sample pair whose tag has two separators. -/
def pairMulti : TagIconPair := ⟨"a/b/c", "X"⟩

/-- Sample pair whose name contains an underscore. -/
def pairUnder : TagIconPair := ⟨"status/in_progress", "🔄"⟩

instance : DecidableEq (Except String Str) := fun a b =>
  match a, b with
  | .ok s, .ok t => if h : s = t then isTrue (by rw [h]) else isFalse (by simp [h])
  | .error e, .error f => if h : e = f then isTrue (by rw [h]) else isFalse (by simp [h])
  | .ok _, .error _ => isFalse (by simp)
  | .error _, .ok _ => isFalse (by simp)

theorem okD_of_ok {e : Except String Str} {s : Str} (h : e = .ok s) : e = .ok (okD e) := by
  subst h; rfl

theorem two_le_length_append_right (a b : Str) (h : 2 ≤ b.length) :
    2 ≤ (a ++ b).length := by
  simp only [List.length_append]
  omega

theorem two_le_length_append_left (a b : Str) (h : 2 ≤ a.length) :
    2 ≤ (a ++ b).length := by
  simp only [List.length_append]
  omega

theorem jsSliceDrop2_append (a b : Str) (hb : 2 ≤ b.length) :
    jsSliceDrop2 (a ++ b) = a ++ jsSliceDrop2 b := by
  unfold jsSliceDrop2
  rw [List.length_append]
  have h : a.length + b.length - 2 = a.length + (b.length - 2) := by omega
  rw [h, List.take_append]

theorem jsSliceDrop2_append_two (a : Str) : jsSliceDrop2 (a ++ lit ",\n") = a := by
  unfold jsSliceDrop2
  rw [List.length_append]
  have h : (lit ",\n").length = 2 := rfl
  rw [h, Nat.add_sub_cancel]
  exact List.take_left' rfl

theorem appendSnips_eq_ok (snip : TagIconPair → Except String Str)
    (psnip : TagIconPair → Str) (pairs : List TagIconPair)
    (h : ∀ r ∈ pairs, snip r = .ok (psnip r)) :
    ∀ acc, appendSnips snip pairs acc = .ok (acc ++ (pairs.map psnip).flatten) := by
  induction pairs with
  | nil => intro acc; simp [appendSnips]
  | cons p rest ih =>
    intro acc
    have hp : snip p = .ok (psnip p) := h p (by simp)
    have hrest : ∀ r ∈ rest, snip r = .ok (psnip r) := fun r hr => h r (by simp [hr])
    simp [appendSnips, hp, ih hrest, List.append_assoc]

theorem exists_ok_snip1 (p : TagIconPair) (h : ValidTag p) : ∃ s, snip1 p = .ok s := by
  unfold ValidTag at h
  unfold snip1
  rcases hn : (splitTag p.tag).2 with _ | name
  · rw [hn] at h; simp at h
  · simp only [hn]
    split <;> exact ⟨_, rfl⟩

theorem exists_ok_snip2 (p : TagIconPair) (h : ValidTag p) : ∃ s, snip2 p = .ok s := by
  unfold ValidTag at h
  unfold snip2
  rcases hn : (splitTag p.tag).2 with _ | name
  · rw [hn] at h; simp at h
  · simp only [hn]
    split <;> exact ⟨_, rfl⟩

theorem exists_ok_snip3 (p : TagIconPair) (h : ValidTag p) : ∃ s, snip3 p = .ok s := by
  unfold ValidTag at h
  unfold snip3
  rcases hn : (splitTag p.tag).2 with _ | name
  · rw [hn] at h; simp at h
  · simp only [hn]
    split <;> exact ⟨_, rfl⟩

theorem snip1_eq_ok (p : TagIconPair) (h : ValidTag p) : snip1 p = .ok (psnip1 p) := by
  obtain ⟨s, hs⟩ := exists_ok_snip1 p h
  exact okD_of_ok hs

theorem snip2_eq_ok (p : TagIconPair) (h : ValidTag p) : snip2 p = .ok (psnip2 p) := by
  obtain ⟨s, hs⟩ := exists_ok_snip2 p h
  exact okD_of_ok hs

theorem snip3_eq_ok (p : TagIconPair) (h : ValidTag p) : snip3 p = .ok (psnip3 p) := by
  obtain ⟨s, hs⟩ := exists_ok_snip3 p h
  exact okD_of_ok hs

theorem two_le_psnip1_length (p : TagIconPair) (h : ValidTag p) :
    2 ≤ (psnip1 p).length := by
  unfold ValidTag at h
  unfold psnip1 snip1
  rcases hn : (splitTag p.tag).2 with _ | name
  · rw [hn] at h; simp at h
  · simp only [hn]
    split <;>
      (simp only [okD]
       apply two_le_length_append_right
       apply two_le_length_append_right
       decide)

theorem two_le_psnip2_length (p : TagIconPair) (h : ValidTag p) :
    2 ≤ (psnip2 p).length := by
  unfold ValidTag at h
  unfold psnip2 snip2
  rcases hn : (splitTag p.tag).2 with _ | name
  · rw [hn] at h; simp at h
  · simp only [hn]
    split <;>
      (simp only [okD]
       apply two_le_length_append_right
       apply two_le_length_append_right
       decide)

theorem two_le_psnip3_length (p : TagIconPair) (h : ValidTag p) :
    2 ≤ (psnip3 p).length := by
  unfold ValidTag at h
  unfold psnip3 snip3
  rcases hn : (splitTag p.tag).2 with _ | name
  · rw [hn] at h; simp at h
  · simp only [hn]
    split <;>
      (simp only [okD]
       apply two_le_length_append_right
       apply two_le_length_append_right
       decide)

theorem two_le_flatten_head (f : TagIconPair → Str) (p : TagIconPair)
    (rest : List TagIconPair) (h : 2 ≤ (f p).length) :
    2 ≤ ((p :: rest).map f).flatten.length := by
  simp only [List.map_cons, List.flatten_cons]
  exact two_le_length_append_left _ _ h

theorem generateCss_eq_blocks (pairs : List TagIconPair)
    (hv : ∀ r ∈ pairs, ValidTag r) (hne : pairs ≠ []) :
    generateCss pairs = .ok (block1 pairs ++ block2 pairs ++ block3 pairs ++ block4 pairs) := by
  obtain ⟨p, rest, rfl⟩ := List.exists_cons_of_ne_nil hne
  have hs1 : ∀ r ∈ p :: rest, snip1 r = .ok (psnip1 r) :=
    fun r hr => snip1_eq_ok r (hv r hr)
  have hs2 : ∀ r ∈ p :: rest, snip2 r = .ok (psnip2 r) :=
    fun r hr => snip2_eq_ok r (hv r hr)
  have hs3 : ∀ r ∈ p :: rest, snip3 r = .ok (psnip3 r) :=
    fun r hr => snip3_eq_ok r (hv r hr)
  have hl2 : 2 ≤ (((p :: rest).map psnip2).flatten).length :=
    two_le_flatten_head psnip2 p rest (two_le_psnip2_length p (hv p (by simp)))
  have hl3 : 2 ≤ (((p :: rest).map psnip3).flatten).length :=
    two_le_flatten_head psnip3 p rest (two_le_psnip3_length p (hv p (by simp)))
  unfold generateCss
  rw [appendSnips_eq_ok snip1 psnip1 _ hs1]
  simp only [Except.bind, List.nil_append]
  rw [appendSnips_eq_ok snip2 psnip2 _ hs2]
  simp only [Except.bind]
  rw [appendSnips_eq_ok snip3 psnip3 _ hs3]
  simp only [Except.bind]
  rw [jsSliceDrop2_append _ _ hl2, jsSliceDrop2_append _ _ hl3]
  simp [block1, block2, block3, block4, List.append_assoc]

theorem snip1_error_of_invalid (p : TagIconPair) (h : ¬ ValidTag p) :
    snip1 p = .error undefinedIncludesMsg := by
  unfold ValidTag at h
  unfold snip1
  rcases hn : (splitTag p.tag).2 with _ | name
  · simp [hn]
  · rw [hn] at h; simp at h

theorem appendSnips_error (snip : TagIconPair → Except String Str)
    (pairs : List TagIconPair)
    (h : ∃ p ∈ pairs, snip p = .error undefinedIncludesMsg) :
    ∀ acc, ∃ e, appendSnips snip pairs acc = .error e := by
  induction pairs with
  | nil => intro acc; simp at h
  | cons q rest ih =>
    intro acc
    rcases h with ⟨p, hp, herr⟩
    rcases List.mem_cons.mp hp with rfl | hmem
    · exact ⟨undefinedIncludesMsg, by simp [appendSnips, herr]⟩
    · cases hq : snip q with
      | error e => exact ⟨e, by simp [appendSnips, hq]⟩
      | ok s =>
        obtain ⟨e, he⟩ := ih ⟨p, hmem, herr⟩ (acc ++ s)
        exact ⟨e, by simp [appendSnips, hq, he]⟩

theorem generateCss_error_of_invalid (pairs : List TagIconPair)
    (h : ∃ p ∈ pairs, ¬ ValidTag p) : ∃ e, generateCss pairs = .error e := by
  rcases h with ⟨p, hp, hnv⟩
  obtain ⟨e, he⟩ :=
    appendSnips_error snip1 pairs ⟨p, hp, snip1_error_of_invalid p hnv⟩ []
  exact ⟨e, by unfold generateCss; rw [he]; rfl⟩

theorem generateCss_ok_of_valid (pairs : List TagIconPair)
    (hv : ∀ r ∈ pairs, ValidTag r) : ∃ s, generateCss pairs = .ok s := by
  cases pairs with
  | nil => exact ⟨_, rfl⟩
  | cons p rest => exact ⟨_, generateCss_eq_blocks (p :: rest) hv (by simp)⟩

theorem psnip1_shape (p : TagIconPair) (name : Str)
    (hn : (splitTag p.tag).2 = some name) (hc : '_' ∈ name) :
    psnip1 p = ((lit ".tag[href=\"#" ++ p.tag.toList ++ lit "\"],\n")
        ++ (lit ".cm-tag-" ++ cleanTagOf p ++ lit ",\n"))
      ++ sib1 p ++ lit ",\n" ++ sib2 p ++ lit ",\n" := by
  have e1 : lit " + span.cm-hashtag,\n" = lit " + span.cm-hashtag" ++ lit ",\n" := by
    decide
  have e2 : lit " + span.cm-hashtag + .cm-hashtag,\n"
      = lit " + span.cm-hashtag + .cm-hashtag" ++ lit ",\n" := by decide
  simp [psnip1, snip1, okD, hn, hc, sib1, sib2, e1, e2, List.append_assoc]

theorem psnip2_shape (p : TagIconPair) (name : Str)
    (hn : (splitTag p.tag).2 = some name) (hc : '_' ∈ name) :
    psnip2 p = ((lit ".tag[href=\"#" ++ p.tag.toList ++ lit "\"]:after,\n")
        ++ (lit ".cm-tag-" ++ cleanTagOf p ++ lit ":after,\n"))
      ++ (sib1 p ++ lit ":after") ++ lit ",\n" ++ (sib2 p ++ lit ":after") ++ lit ",\n" := by
  have e1 : lit " + span.cm-hashtag:after,\n"
      = lit " + span.cm-hashtag" ++ lit ":after" ++ lit ",\n" := by decide
  have e2 : lit " + span.cm-hashtag + .cm-hashtag:after,\n"
      = lit " + span.cm-hashtag + .cm-hashtag" ++ lit ":after" ++ lit ",\n" := by decide
  simp [psnip2, snip2, okD, hn, hc, sib1, sib2, e1, e2, List.append_assoc]

theorem psnip3_shape (p : TagIconPair) (name : Str)
    (hn : (splitTag p.tag).2 = some name) (hc : '_' ∈ name) :
    psnip3 p = ((lit ".cm-active .tag[href=\"#" ++ p.tag.toList ++ lit "\"],\n")
        ++ (lit ".cm-active .cm-tag-" ++ cleanTagOf p ++ lit ",\n"))
      ++ (lit ".cm-active " ++ sib1 p) ++ lit ",\n"
      ++ (lit ".cm-active " ++ sib2 p) ++ lit ",\n" := by
  have e0 : lit ".cm-active .cm-tag-" = lit ".cm-active " ++ lit ".cm-tag-" := by decide
  have e1 : lit " + span.cm-hashtag,\n" = lit " + span.cm-hashtag" ++ lit ",\n" := by
    decide
  have e2 : lit " + span.cm-hashtag + .cm-hashtag,\n"
      = lit " + span.cm-hashtag + .cm-hashtag" ++ lit ",\n" := by decide
  simp [psnip3, snip3, okD, hn, hc, sib1, sib2, e0, e1, e2, List.append_assoc]

theorem SubStr_append_right (s x y : Str) (h : SubStr s x) : SubStr s (x ++ y) := by
  rcases h with ⟨a, b, rfl⟩
  exact ⟨a, b ++ y, by simp [List.append_assoc]⟩

theorem substr_sliced_flatten (f : TagIconPair → Str) (pairs : List TagIconPair)
    (p : TagIconPair) (hmem : p ∈ pairs)
    (hlen : ∀ r ∈ pairs, 2 ≤ (f r).length)
    (pre s1 s2 : Str)
    (hshape : f p = pre ++ s1 ++ lit ",\n" ++ s2 ++ lit ",\n") :
    SubStr s1 (jsSliceDrop2 (pairs.map f).flatten)
    ∧ SubStr s2 (jsSliceDrop2 (pairs.map f).flatten) := by
  obtain ⟨l1, l2, rfl⟩ := List.append_of_mem hmem
  cases l2 with
  | nil =>
    have hJ : ((l1 ++ [p]).map f).flatten
        = ((((l1.map f).flatten ++ pre) ++ s1 ++ lit ",\n" ++ s2) ++ lit ",\n") := by
      simp [hshape, List.append_assoc]
    rw [hJ, jsSliceDrop2_append_two]
    constructor
    · exact ⟨(l1.map f).flatten ++ pre, lit ",\n" ++ s2, by simp [List.append_assoc]⟩
    · exact ⟨((l1.map f).flatten ++ pre) ++ s1 ++ lit ",\n", [],
        by simp [List.append_assoc]⟩
  | cons x xs =>
    have hB : 2 ≤ (((x :: xs).map f).flatten).length :=
      two_le_flatten_head f x xs (hlen x (by simp))
    have hJ : ((l1 ++ p :: x :: xs).map f).flatten
        = ((l1.map f).flatten ++ f p) ++ ((x :: xs).map f).flatten := by
      simp [List.append_assoc]
    rw [hJ, jsSliceDrop2_append _ _ hB]
    constructor
    · exact ⟨(l1.map f).flatten ++ pre,
        lit ",\n" ++ s2 ++ lit ",\n" ++ jsSliceDrop2 ((x :: xs).map f).flatten,
        by simp [hshape, List.append_assoc]⟩
    · exact ⟨((l1.map f).flatten ++ pre) ++ s1 ++ lit ",\n",
        lit ",\n" ++ jsSliceDrop2 ((x :: xs).map f).flatten,
        by simp [hshape, List.append_assoc]⟩

/-- C1: the claimed property fails in the code.  For the empty pair list the
generation completes, but the resulting stylesheet is a rule body attached to
an empty selector list, with the closing newlines of the earlier blocks eaten
by the unguarded slice, instead of being empty or a well formed stylesheet.
This theorem evaluates the model at the failing input and records that the
output starts with a space and an opening brace, that is, a body with no
selector before it. -/
theorem c1_generateCss_empty_emits_malformed :
    generateCss [] = .ok (lit " \x7b\n  font-size: 0px;\n  padding: 0;\n\x7d \x7b\n  font-size: var(--font-text-size);\n\x7d \x7b\n  font-size: var(--font-text-size);\n\x7d\n\n")
    ∧ (lit " \x7b\n  font-size: 0px;\n  padding: 0;\n\x7d \x7b\n  font-size: var(--font-text-size);\n\x7d \x7b\n  font-size: var(--font-text-size);\n\x7d\n\n").take 2
      = lit " \x7b" :=
  ⟨by decide, by decide⟩

/-- C2 counterexample: a pair whose tag contains no slash separator does not
silently yield a degenerate selector; reading includes from the undefined name
binding throws, so the generation fails instead of returning output. -/
theorem c2_noSlash_raises :
    generateCss [pairNoSlash] = .error undefinedIncludesMsg := by decide

/-- C2 amended: for every list of pairs whose tags each contain at least one
slash, the generation raises no error (tags with extra slashes silently yield
degenerate selectors); a list containing a pair whose tag has no slash makes
the generation fail with the TypeError instead. -/
theorem c2_amended_no_error_for_slashed :
    ∀ pairs : List TagIconPair,
      ((∀ r ∈ pairs, ValidTag r) → ∃ s, generateCss pairs = .ok s)
      ∧ ((∃ p ∈ pairs, ¬ ValidTag p) → ∃ e, generateCss pairs = .error e) :=
  fun pairs => ⟨generateCss_ok_of_valid pairs, generateCss_error_of_invalid pairs⟩

theorem c2_amended_witness :
    ((∀ r ∈ [pairMulti], ValidTag r) ∧ ∃ s, generateCss [pairMulti] = .ok s)
    ∧ ((∃ p ∈ [pairNoSlash], ¬ ValidTag p)
        ∧ ∃ e, generateCss [pairNoSlash] = .error e) :=
  ⟨⟨by decide, (c2_amended_no_error_for_slashed [pairMulti]).1 (by decide)⟩,
   ⟨by decide, (c2_amended_no_error_for_slashed [pairNoSlash]).2 (by decide)⟩⟩

/-- C3: for the two pair scenario the suppress block selector list is exactly
the four selectors in input order, followed immediately by the shared body
that sets the zero font size and zero padding, followed by the later blocks. -/
theorem c3_scenario_suppress_selector_list :
    generateCss [pairAB, pairCD]
      = .ok (lit ".tag[href=\"#a/b\"],\n.cm-tag-ab,\n.tag[href=\"#c/d\"],\n.cm-tag-cd"
          ++ (suppressBody
          ++ (block2 [pairAB, pairCD] ++ block3 [pairAB, pairCD]
              ++ block4 [pairAB, pairCD]))) := by
  decide

/-- C4: for the single pair the output opens with a suppress selector list
containing the rendered link selector and the editor token selector, followed
immediately by the shared suppress body, and the fourth block contains a rule
body with the icon as content. -/
theorem c4_single_pair_selectors_and_content :
    generateCss [pairTask]
      = .ok ((lit ".tag[href=\"#task/inbox\"]" ++ lit ",\n" ++ lit ".cm-tag-taskinbox")
          ++ (suppressBody
          ++ (block2 [pairTask] ++ block3 [pairTask] ++ block4 [pairTask])))
    ∧ SubStr (lit "content: \"📥\"") (block4 [pairTask]) :=
  ⟨by decide,
   ⟨lit ".tag[href=\"#task/inbox\"]:after,\n.cm-hashtag-begin.cm-tag-taskinbox:after \x7b\n  background-color: rgba(162, 93, 53, 0.1);\n  border: solid 1px rgba(209, 209, 209, 0.1);\n  border-radius: 3px;\n  ",
    lit ";\n\x7d\n\n", by decide⟩⟩

/-- C5: for every pair list whose tags are well formed and every member pair
whose name segment contains an underscore, the output splits into the four
blocks, and each of the three selector list blocks contains the two sibling
hashtag continuation selectors of that pair, decorated with after in the
second block and with the active line scope in the third block. -/
theorem c5_underscore_sibling_selectors (pairs : List TagIconPair)
    (p : TagIconPair) (name : Str)
    (hmem : p ∈ pairs) (hv : ∀ r ∈ pairs, ValidTag r)
    (hn : (splitTag p.tag).2 = some name) (hc : '_' ∈ name) :
    generateCss pairs = .ok (block1 pairs ++ block2 pairs ++ block3 pairs ++ block4 pairs)
    ∧ (SubStr (sib1 p) (block1 pairs) ∧ SubStr (sib2 p) (block1 pairs))
    ∧ (SubStr (sib1 p ++ lit ":after") (block2 pairs)
        ∧ SubStr (sib2 p ++ lit ":after") (block2 pairs))
    ∧ (SubStr (lit ".cm-active " ++ sib1 p) (block3 pairs)
        ∧ SubStr (lit ".cm-active " ++ sib2 p) (block3 pairs)) := by
  have hne : pairs ≠ [] := List.ne_nil_of_mem hmem
  refine ⟨generateCss_eq_blocks pairs hv hne, ?_, ?_, ?_⟩
  · have h := substr_sliced_flatten psnip1 pairs p hmem
      (fun r hr => two_le_psnip1_length r (hv r hr)) _ _ _ (psnip1_shape p name hn hc)
    exact ⟨SubStr_append_right _ _ _ h.1, SubStr_append_right _ _ _ h.2⟩
  · have h := substr_sliced_flatten psnip2 pairs p hmem
      (fun r hr => two_le_psnip2_length r (hv r hr)) _ _ _ (psnip2_shape p name hn hc)
    exact ⟨SubStr_append_right _ _ _ h.1, SubStr_append_right _ _ _ h.2⟩
  · have h := substr_sliced_flatten psnip3 pairs p hmem
      (fun r hr => two_le_psnip3_length r (hv r hr)) _ _ _ (psnip3_shape p name hn hc)
    exact ⟨SubStr_append_right _ _ _ h.1, SubStr_append_right _ _ _ h.2⟩

theorem c5_witness :
    (pairUnder ∈ [pairUnder])
    ∧ (generateCss [pairUnder]
        = .ok (block1 [pairUnder] ++ block2 [pairUnder] ++ block3 [pairUnder]
            ++ block4 [pairUnder])
      ∧ (SubStr (sib1 pairUnder) (block1 [pairUnder])
          ∧ SubStr (sib2 pairUnder) (block1 [pairUnder]))
      ∧ (SubStr (sib1 pairUnder ++ lit ":after") (block2 [pairUnder])
          ∧ SubStr (sib2 pairUnder ++ lit ":after") (block2 [pairUnder]))
      ∧ (SubStr (lit ".cm-active " ++ sib1 pairUnder) (block3 [pairUnder])
          ∧ SubStr (lit ".cm-active " ++ sib2 pairUnder) (block3 [pairUnder]))) :=
  ⟨by decide,
   c5_underscore_sibling_selectors [pairUnder] pairUnder (lit "in_progress")
     (by decide) (by decide) (by decide) (by decide)⟩

/-- C6: the generation is a pure function of the pair list, so two runs on
the same list produce identical results byte for byte. -/
theorem c6_deterministic :
    ∀ pairs : List TagIconPair, generateCss pairs = generateCss pairs :=
  fun _ => rfl

/-- C7: transposing two pairs of the input list transposes exactly their per
pair selector snippets inside the first three blocks and their per pair rule
blocks inside the fourth block, leaving every other contribution in place. -/
theorem c7_transposition (l1 l2 l3 : List TagIconPair) (p q : TagIconPair)
    (hv : ∀ r ∈ l1 ++ p :: l2 ++ q :: l3, ValidTag r) :
    generateCss (l1 ++ p :: l2 ++ q :: l3)
      = .ok (assemble
          (l1.map psnip1 ++ psnip1 p :: (l2.map psnip1 ++ psnip1 q :: l3.map psnip1))
          (l1.map psnip2 ++ psnip2 p :: (l2.map psnip2 ++ psnip2 q :: l3.map psnip2))
          (l1.map psnip3 ++ psnip3 p :: (l2.map psnip3 ++ psnip3 q :: l3.map psnip3))
          (l1.map snip4 ++ snip4 p :: (l2.map snip4 ++ snip4 q :: l3.map snip4)))
    ∧ generateCss (l1 ++ q :: l2 ++ p :: l3)
      = .ok (assemble
          (l1.map psnip1 ++ psnip1 q :: (l2.map psnip1 ++ psnip1 p :: l3.map psnip1))
          (l1.map psnip2 ++ psnip2 q :: (l2.map psnip2 ++ psnip2 p :: l3.map psnip2))
          (l1.map psnip3 ++ psnip3 q :: (l2.map psnip3 ++ psnip3 p :: l3.map psnip3))
          (l1.map snip4 ++ snip4 q :: (l2.map snip4 ++ snip4 p :: l3.map snip4))) := by
  have hv' : ∀ r ∈ l1 ++ q :: l2 ++ p :: l3, ValidTag r := by
    intro r hr
    apply hv
    simp only [List.mem_append, List.mem_cons] at hr ⊢
    tauto
  constructor
  · rw [generateCss_eq_blocks _ hv (by simp)]
    simp [block1, block2, block3, block4, assemble, List.append_assoc]
  · rw [generateCss_eq_blocks _ hv' (by simp)]
    simp [block1, block2, block3, block4, assemble, List.append_assoc]

theorem c7_witness :
    (∀ r ∈ [pairAB, pairCD], ValidTag r)
    ∧ (generateCss [pairAB, pairCD]
        = .ok (assemble [psnip1 pairAB, psnip1 pairCD] [psnip2 pairAB, psnip2 pairCD]
            [psnip3 pairAB, psnip3 pairCD] [snip4 pairAB, snip4 pairCD])
      ∧ generateCss [pairCD, pairAB]
        = .ok (assemble [psnip1 pairCD, psnip1 pairAB] [psnip2 pairCD, psnip2 pairAB]
            [psnip3 pairCD, psnip3 pairAB] [snip4 pairCD, snip4 pairAB])) :=
  ⟨by decide, c7_transposition [] [] [] pairAB pairCD (by decide)⟩

/-- C8: when the pair list generates successfully, a failing directory
creation or file write is caught at the top level: the whole run still
returns successfully, the error is recorded as logged, a mkdir failure skips
the write, and each filesystem operation is attempted at most once. -/
theorem c8_fs_failure_swallowed (pairs : List TagIconPair) (m w : FsResult)
    (hv : ∀ r ∈ pairs, ValidTag r) :
    ∃ s, generateCssRun pairs m w = .ok (s, runFs m w)
      ∧ (runFs m w).1.count FsOp.mkdir ≤ 1 ∧ (runFs m w).1.count FsOp.write ≤ 1
      ∧ (∀ e, m = FsResult.err e → runFs m w = ([FsOp.mkdir], some e))
      ∧ (∀ e, m = FsResult.ok → w = FsResult.err e
          → runFs m w = ([FsOp.mkdir, FsOp.write], some e)) := by
  obtain ⟨s, hs⟩ := generateCss_ok_of_valid pairs hv
  refine ⟨s, by unfold generateCssRun; rw [hs], ?_, ?_, ?_, ?_⟩
  · cases m <;> cases w <;> simp [runFs]
  · cases m <;> cases w <;> simp [runFs]
  · rintro e rfl; rfl
  · rintro e rfl rfl; rfl

theorem c8_witness :
    (∀ r ∈ ([] : List TagIconPair), ValidTag r)
    ∧ ∃ s, generateCssRun [] (FsResult.err "EACCES") FsResult.ok = .ok (s, runFs (FsResult.err "EACCES") FsResult.ok)
      ∧ (runFs (FsResult.err "EACCES") FsResult.ok).1.count FsOp.mkdir ≤ 1
      ∧ (runFs (FsResult.err "EACCES") FsResult.ok).1.count FsOp.write ≤ 1
      ∧ (∀ e, FsResult.err "EACCES" = FsResult.err e
          → runFs (FsResult.err "EACCES") FsResult.ok = ([FsOp.mkdir], some e))
      ∧ (∀ e, FsResult.err "EACCES" = FsResult.ok → FsResult.ok = FsResult.err e
          → runFs (FsResult.err "EACCES") FsResult.ok
            = ([FsOp.mkdir, FsOp.write], some e)) :=
  ⟨by simp, c8_fs_failure_swallowed [] (FsResult.err "EACCES") FsResult.ok (by simp)⟩

/-- C9: loading merges the default settings with the persisted blob: a
missing or null blob yields the defaults, a blob without the field keeps the
default empty list, and a present field takes precedence over the default. -/
theorem c9_loadSettings_merge :
    loadSettings none = DEFAULT_SETTINGS
    ∧ loadSettings (some ⟨none⟩) = DEFAULT_SETTINGS
    ∧ ∀ l : List TagIconPair, loadSettings (some ⟨some l⟩) = ⟨l⟩ :=
  ⟨rfl, rfl, fun _ => rfl⟩

/-- C10: the move up action at index zero and the move down action at the
last index leave the list unchanged; at an interior index each action swaps
the row with its neighbour, preserves the length, and leaves every other
element in place. -/
theorem c10_move_actions (l : List TagIconPair) (i : Nat) (hi : i < l.length) :
    moveUp l 0 = l
    ∧ moveDown l (l.length - 1) = l
    ∧ (0 < i →
        (moveUp l i).length = l.length
        ∧ (moveUp l i)[i - 1]? = l[i]?
        ∧ (moveUp l i)[i]? = l[i - 1]?
        ∧ ∀ j, j ≠ i - 1 → j ≠ i → (moveUp l i)[j]? = l[j]?)
    ∧ (i + 1 < l.length →
        (moveDown l i).length = l.length
        ∧ (moveDown l i)[i]? = l[i + 1]?
        ∧ (moveDown l i)[i + 1]? = l[i]?
        ∧ ∀ j, j ≠ i → j ≠ i + 1 → (moveDown l i)[j]? = l[j]?) := by
  refine ⟨by simp [moveUp], by simp [moveDown], ?_, ?_⟩
  · intro h0
    have hi1 : i - 1 < l.length := by omega
    unfold moveUp
    rw [if_pos h0]
    refine ⟨by simp, ?_, ?_, ?_⟩
    · rw [List.getElem?_set_ne (by omega : i ≠ i - 1),
        List.getElem?_set_self hi1,
        List.getD_eq_getElem?_getD, List.getElem?_eq_getElem hi]
      simp
    · rw [List.getElem?_set_self (by simpa using hi),
        List.getD_eq_getElem?_getD, List.getElem?_eq_getElem hi1]
      simp
    · intro j hj1 hj2
      rw [List.getElem?_set_ne (by omega : i ≠ j),
        List.getElem?_set_ne (by omega : i - 1 ≠ j)]
  · intro hd
    unfold moveDown
    rw [if_pos (by omega : i < l.length - 1)]
    refine ⟨by simp, ?_, ?_, ?_⟩
    · rw [List.getElem?_set_self (by simpa using hi),
        List.getD_eq_getElem?_getD, List.getElem?_eq_getElem hd]
      simp
    · rw [List.getElem?_set_ne (by omega : i ≠ i + 1),
        List.getElem?_set_self hd,
        List.getD_eq_getElem?_getD, List.getElem?_eq_getElem hi]
      simp
    · intro j hj1 hj2
      rw [List.getElem?_set_ne (by omega : i ≠ j),
        List.getElem?_set_ne (by omega : i + 1 ≠ j)]

theorem c10_witness :
    (1 < [pairAB, pairCD, pairTask].length)
    ∧ (moveUp [pairAB, pairCD, pairTask] 0 = [pairAB, pairCD, pairTask]
      ∧ moveDown [pairAB, pairCD, pairTask] ([pairAB, pairCD, pairTask].length - 1)
          = [pairAB, pairCD, pairTask]
      ∧ (0 < 1 →
          (moveUp [pairAB, pairCD, pairTask] 1).length = [pairAB, pairCD, pairTask].length
          ∧ (moveUp [pairAB, pairCD, pairTask] 1)[0]? = [pairAB, pairCD, pairTask][1]?
          ∧ (moveUp [pairAB, pairCD, pairTask] 1)[1]? = [pairAB, pairCD, pairTask][0]?
          ∧ ∀ j, j ≠ 0 → j ≠ 1
              → (moveUp [pairAB, pairCD, pairTask] 1)[j]? = [pairAB, pairCD, pairTask][j]?)
      ∧ (1 + 1 < [pairAB, pairCD, pairTask].length →
          (moveDown [pairAB, pairCD, pairTask] 1).length = [pairAB, pairCD, pairTask].length
          ∧ (moveDown [pairAB, pairCD, pairTask] 1)[1]? = [pairAB, pairCD, pairTask][2]?
          ∧ (moveDown [pairAB, pairCD, pairTask] 1)[2]? = [pairAB, pairCD, pairTask][1]?
          ∧ ∀ j, j ≠ 1 → j ≠ 2
              → (moveDown [pairAB, pairCD, pairTask] 1)[j]? = [pairAB, pairCD, pairTask][j]?)) :=
  ⟨by decide, c10_move_actions [pairAB, pairCD, pairTask] 1 (by decide)⟩
